import Mathlib

/-!
Shallow embedding of `lib/src/jpegrutils.cpp` from libultrahdr.

Modelled directly from the source:
* `DataStruct` (the bounded buffer writer) and the free function `Write`;
* the `XMPXmlHandler` scanner state machine over XML tokenizer events;
* the accessor and field-resolution logic of `getMetadataFromXMP`, together
  with its namespace checks and packet trimming;
* the writer-action sequences of `generateXmpForPrimaryImage` and
  `generateXmpForSecondaryImage`.

External collaborators (the image_io XML reader/writer, the C++ stream
numeric conversions, and the types `uhdr_error_info_t`,
`uhdr_compressed_image_t`, `uhdr_gainmap_metadata_ext_t` declared in headers
outside this repository) are modelled at their interfaces: the XML reader is
an abstract event source, numeric attribute text is modelled by the exact
value it denotes, and C `float` arithmetic is modelled over the real numbers.
-/

namespace ultrahdr

/-- Error codes of `uhdr_error_info_t` (declared in the library's public
header, outside this repository's shown source; these are the codes used by
`jpegrutils.cpp`). -/
inductive UhdrCodecErr where
  | UHDR_CODEC_OK
  | UHDR_CODEC_ERROR
  | UHDR_CODEC_UNKNOWN_ERROR
  | UHDR_CODEC_MEM_ERROR
  deriving DecidableEq

/-- The structured error object `uhdr_error_info_t`: an error code, a
has-detail flag and a detail string. -/
structure UhdrErrorInfo where
  error_code : UhdrCodecErr
  has_detail : Bool
  detail : String
  deriving DecidableEq

/-- The global no-error value `g_no_error`. -/
def g_no_error : UhdrErrorInfo := ⟨.UHDR_CODEC_OK, false, ""⟩

/-! ### DataStruct: the bounded buffer writer -/

/-- `DataStruct`: a malloc'ed region of `length` bytes and a write cursor.
Bytes are modelled as naturals below 256. -/
structure DataStruct where
  data : List ℕ
  length : ℕ
  writePos : ℕ
  deriving DecidableEq

/-- `DataStruct::DataStruct(size_t s)`: allocate `s` bytes, zero them
(`memset(data, 0, s)`), cursor at 0. -/
def DataStruct.init (s : ℕ) : DataStruct := ⟨List.replicate s 0, s, 0⟩

/-- `DataStruct::getData`. -/
def DataStruct.getData (d : DataStruct) : List ℕ := d.data

/-- `DataStruct::getLength`. -/
def DataStruct.getLength (d : DataStruct) : ℕ := d.length

/-- `DataStruct::getBytesWritten`. -/
def DataStruct.getBytesWritten (d : DataStruct) : ℕ := d.writePos

/-- `memcpy(dst + pos, src, src.length)`: overwrite `src.length` bytes of
`dst` starting at offset `pos`. -/
def listWriteAt (dst : List ℕ) (pos : ℕ) (src : List ℕ) : List ℕ :=
  dst.take pos ++ src ++ dst.drop (pos + src.length)

/-- `DataStruct::write(const void* src, size_t size)`: if
`writePos + size > length` log and return false with no mutation; otherwise
copy the bytes at the cursor, advance the cursor by `size`, return true. -/
def DataStruct.write (d : DataStruct) (src : List ℕ) : Bool × DataStruct :=
  if d.length < d.writePos + src.length then (false, d)
  else (true, ⟨listWriteAt d.data d.writePos src, d.length, d.writePos + src.length⟩)

/-- `DataStruct::write8(uint8_t value)`: one byte. -/
def DataStruct.write8 (d : DataStruct) (value : ℕ) : Bool × DataStruct :=
  d.write [value % 256]

/-- `DataStruct::write16(uint16_t value)`: the two bytes of the value
(little-endian host memcpy). -/
def DataStruct.write16 (d : DataStruct) (value : ℕ) : Bool × DataStruct :=
  d.write [value % 256, value / 256 % 256]

/-- `DataStruct::write32(uint32_t value)`: the four bytes of the value
(little-endian host memcpy). -/
def DataStruct.write32 (d : DataStruct) (value : ℕ) : Bool × DataStruct :=
  d.write [value % 256, value / 256 % 256, value / 65536 % 256, value / 16777216 % 256]

/-- A sequence of `DataStruct` write calls (used to state invariants across
arbitrary call sequences). -/
inductive WriteOp where
  | w8 (value : ℕ)
  | w16 (value : ℕ)
  | w32 (value : ℕ)
  | wbuf (src : List ℕ)

/-- Perform one write call, keeping the (possibly unchanged) buffer. -/
def applyOp (d : DataStruct) (op : WriteOp) : DataStruct :=
  match op with
  | .w8 v => (d.write8 v).2
  | .w16 v => (d.write16 v).2
  | .w32 v => (d.write32 v).2
  | .wbuf s => (d.write s).2

/-- Run a sequence of write calls on a fresh `DataStruct` of capacity `c`. -/
def runOps (c : ℕ) (ops : List WriteOp) : DataStruct :=
  ops.foldl applyOp (DataStruct.init c)

/-! ### The free-standing Write into a caller-owned destination -/

/-- `uhdr_compressed_image_t` as used by `Write`: a data region and its
capacity (the other header fields are not read by this code). -/
structure UhdrCompressedImage where
  data : List ℕ
  capacity : ℕ
  deriving DecidableEq

/-- Detail string of the overflow error of `Write` (the `snprintf` format
with the three values substituted). -/
def memErrDetail (position size capacity : ℕ) : String :=
  "output buffer to store compressed data is too small: write position: " ++
    toString position ++ ", size: " ++ toString size ++ ", capacity: " ++ toString capacity

/-- The overflow error object built by `Write`. -/
def memError (position size capacity : ℕ) : UhdrErrorInfo :=
  ⟨.UHDR_CODEC_MEM_ERROR, true, memErrDetail position size capacity⟩

/-- `Write(uhdr_compressed_image_t* destination, const void* source, size_t
length, size_t& position)`: bounds-check against `destination->capacity`; on
violation return a memory-class error leaving destination and cursor alone;
otherwise memcpy at `position` and advance the by-reference cursor.  The
source range is modelled as the byte list `source` (its length is the
`length` argument); the returned triple carries the status, the destination
and the cursor. -/
def Write (destination : UhdrCompressedImage) (source : List ℕ) (position : ℕ) :
    UhdrErrorInfo × UhdrCompressedImage × ℕ :=
  if destination.capacity < position + source.length then
    (memError position source.length destination.capacity, destination, position)
  else
    (g_no_error, ⟨listWriteAt destination.data position source, destination.capacity⟩,
      position + source.length)

/-! ### XMP constants -/

/-- Helper `Name(prefix, suffix) = "prefix:suffix"`. -/
def Name (p s : String) : String := p ++ ":" ++ s

/-- GContainer XMP constant `kContainerUri`. -/
def kContainerUri : String := "http://ns.google.com/photos/1.0/container/"

/-- GContainer XMP constant (named `kContainerPrefix` in the source). -/
def kContainerPfx : String := "Container"

/-- `kConDirectory`. -/
def kConDirectory : String := "Container:Directory"

/-- `kConItem`. -/
def kConItem : String := "Container:Item"

/-- `XMPXmlHandler::containerName`. -/
def containerName : String := "rdf:Description"

/-- `kItemUri`. -/
def kItemUri : String := "http://ns.google.com/photos/1.0/container/item/"

/-- Item XMP constant (named `kItemPrefix` in the source). -/
def kItemPfx : String := "Item"

/-- `kItemLength`. -/
def kItemLength : String := "Item:Length"

/-- `kItemMime`. -/
def kItemMime : String := "Item:Mime"

/-- `kItemSemantic`. -/
def kItemSemantic : String := "Item:Semantic"

/-- `kSemanticPrimary`. -/
def kSemanticPrimary : String := "Primary"

/-- `kSemanticGainMap`. -/
def kSemanticGainMap : String := "GainMap"

/-- `kMimeImageJpeg`. -/
def kMimeImageJpeg : String := "image/jpeg"

/-- `kGainMapUri`. -/
def kGainMapUri : String := "http://ns.adobe.com/hdr-gain-map/1.0/"

/-- GainMap XMP constant (named `kGainMapPrefix` in the source). -/
def kGainMapPfx : String := "hdrgm"

/-- `kMapVersion`. -/
def kMapVersion : String := "hdrgm:Version"

/-- `kMapGainMapMin`. -/
def kMapGainMapMin : String := "hdrgm:GainMapMin"

/-- `kMapGainMapMax`. -/
def kMapGainMapMax : String := "hdrgm:GainMapMax"

/-- `kMapGamma`. -/
def kMapGamma : String := "hdrgm:Gamma"

/-- `kMapOffsetSdr`. -/
def kMapOffsetSdr : String := "hdrgm:OffsetSDR"

/-- `kMapOffsetHdr`. -/
def kMapOffsetHdr : String := "hdrgm:OffsetHDR"

/-- `kMapHDRCapacityMin`. -/
def kMapHDRCapacityMin : String := "hdrgm:HDRCapacityMin"

/-- `kMapHDRCapacityMax`. -/
def kMapHDRCapacityMax : String := "hdrgm:HDRCapacityMax"

/-- `kMapBaseRenditionIsHDR`. -/
def kMapBaseRenditionIsHDR : String := "hdrgm:BaseRenditionIsHDR"

/-! ### The scanner: XMPXmlHandler -/

/-- `XMPXmlHandler::ParseState` (the source spells it `NotStrarted`). -/
inductive ParseState where
  | NotStrarted
  | Started
  | Done
  deriving DecidableEq

/-- The events the image_io XML reader delivers to the handler.  Each carries
the token value when `BuildTokenValue` succeeds (`none` models a failed
build, upon which the handler does nothing).  The payload type `α` of
attribute values is a parameter: the real reader delivers strings; the
round-trip model delivers exact values. -/
inductive XmlEventG (α : Type) where
  | startElement (val : Option String)
  | finishElement
  | attributeName (val : Option String)
  | attributeValue (val : Option α)
  deriving DecidableEq

/-- The handler state: parse state, one `(value, found)` slot per recognized
attribute, and the last seen attribute name. -/
structure XMPXmlHandlerG (α : Type) where
  state : ParseState
  versionStr : α
  versionFound : Bool
  maxContentBoostStr : α
  maxContentBoostFound : Bool
  minContentBoostStr : α
  minContentBoostFound : Bool
  gammaStr : α
  gammaFound : Bool
  offsetSdrStr : α
  offsetSdrFound : Bool
  offsetHdrStr : α
  offsetHdrFound : Bool
  hdrCapacityMinStr : α
  hdrCapacityMinFound : Bool
  hdrCapacityMaxStr : α
  hdrCapacityMaxFound : Bool
  baseRenditionIsHdrStr : α
  baseRenditionIsHdrFound : Bool
  lastAttributeName : String
  deriving DecidableEq

/-- The `XMPXmlHandler()` constructor: state `NotStrarted`, every found flag
false; value slots hold the payload default (`std::string` default-constructs
empty). -/
def initHandler (d : α) : XMPXmlHandlerG α :=
  ⟨.NotStrarted, d, false, d, false, d, false, d, false, d, false, d, false, d, false,
    d, false, d, false, ""⟩

/-- `lastAttributeName = n` (the assignment in `AttributeName`). -/
def withLastAttr (h : XMPXmlHandlerG α) (n : String) : XMPXmlHandlerG α :=
  { h with lastAttributeName := n }

/-- `versionStr = val; versionFound = true` (assignment in `AttributeValue`). -/
def storeVersion (h : XMPXmlHandlerG α) (v : α) : XMPXmlHandlerG α :=
  { h with versionStr := v, versionFound := true }

/-- `maxContentBoostStr = val; maxContentBoostFound = true`. -/
def storeMaxContentBoost (h : XMPXmlHandlerG α) (v : α) : XMPXmlHandlerG α :=
  { h with maxContentBoostStr := v, maxContentBoostFound := true }

/-- `minContentBoostStr = val; minContentBoostFound = true`. -/
def storeMinContentBoost (h : XMPXmlHandlerG α) (v : α) : XMPXmlHandlerG α :=
  { h with minContentBoostStr := v, minContentBoostFound := true }

/-- `gammaStr = val; gammaFound = true`. -/
def storeGamma (h : XMPXmlHandlerG α) (v : α) : XMPXmlHandlerG α :=
  { h with gammaStr := v, gammaFound := true }

/-- `offsetSdrStr = val; offsetSdrFound = true`. -/
def storeOffsetSdr (h : XMPXmlHandlerG α) (v : α) : XMPXmlHandlerG α :=
  { h with offsetSdrStr := v, offsetSdrFound := true }

/-- `offsetHdrStr = val; offsetHdrFound = true`. -/
def storeOffsetHdr (h : XMPXmlHandlerG α) (v : α) : XMPXmlHandlerG α :=
  { h with offsetHdrStr := v, offsetHdrFound := true }

/-- `hdrCapacityMinStr = val; hdrCapacityMinFound = true`. -/
def storeHdrCapacityMin (h : XMPXmlHandlerG α) (v : α) : XMPXmlHandlerG α :=
  { h with hdrCapacityMinStr := v, hdrCapacityMinFound := true }

/-- `hdrCapacityMaxStr = val; hdrCapacityMaxFound = true`. -/
def storeHdrCapacityMax (h : XMPXmlHandlerG α) (v : α) : XMPXmlHandlerG α :=
  { h with hdrCapacityMaxStr := v, hdrCapacityMaxFound := true }

/-- `baseRenditionIsHdrStr = val; baseRenditionIsHdrFound = true`. -/
def storeBaseRenditionIsHdr (h : XMPXmlHandlerG α) (v : α) : XMPXmlHandlerG α :=
  { h with baseRenditionIsHdrStr := v, baseRenditionIsHdrFound := true }

/-- One event step of the handler: `StartElement`, `FinishElement`,
`AttributeName` and `AttributeValue` of the source, verbatim. -/
def stepG (h : XMPXmlHandlerG α) (e : XmlEventG α) : XMPXmlHandlerG α :=
  match e with
  | .startElement none => h
  | .startElement (some val) =>
      if val = containerName then { h with state := .Started }
      else if h.state ≠ .Done then { h with state := .NotStrarted }
      else h
  | .finishElement =>
      if h.state = .Started then { h with state := .Done, lastAttributeName := "" }
      else h
  | .attributeName none => h
  | .attributeName (some val) =>
      if h.state = .Started then
        if val = kMapVersion then withLastAttr h kMapVersion
        else if val = kMapGainMapMax then withLastAttr h kMapGainMapMax
        else if val = kMapGainMapMin then withLastAttr h kMapGainMapMin
        else if val = kMapGamma then withLastAttr h kMapGamma
        else if val = kMapOffsetSdr then withLastAttr h kMapOffsetSdr
        else if val = kMapOffsetHdr then withLastAttr h kMapOffsetHdr
        else if val = kMapHDRCapacityMin then withLastAttr h kMapHDRCapacityMin
        else if val = kMapHDRCapacityMax then withLastAttr h kMapHDRCapacityMax
        else if val = kMapBaseRenditionIsHDR then withLastAttr h kMapBaseRenditionIsHDR
        else withLastAttr h ""
      else h
  | .attributeValue none => h
  | .attributeValue (some val) =>
      if h.state = .Started then
        if h.lastAttributeName = kMapVersion then storeVersion h val
        else if h.lastAttributeName = kMapGainMapMax then storeMaxContentBoost h val
        else if h.lastAttributeName = kMapGainMapMin then storeMinContentBoost h val
        else if h.lastAttributeName = kMapGamma then storeGamma h val
        else if h.lastAttributeName = kMapOffsetSdr then storeOffsetSdr h val
        else if h.lastAttributeName = kMapOffsetHdr then storeOffsetHdr h val
        else if h.lastAttributeName = kMapHDRCapacityMin then storeHdrCapacityMin h val
        else if h.lastAttributeName = kMapHDRCapacityMax then storeHdrCapacityMax h val
        else if h.lastAttributeName = kMapBaseRenditionIsHDR then storeBaseRenditionIsHdr h val
        else h
      else h

/-- Feed a whole event stream to a fresh handler. -/
def runHandlerG (d : α) (evs : List (XmlEventG α)) : XMPXmlHandlerG α :=
  evs.foldl stepG (initHandler d)

/-! ### Numeric coercion of raw attribute text -/

/-- Digits to a natural number, most significant first. -/
def digitsToNat (cs : List Char) : ℕ :=
  cs.foldl (fun n c => 10 * n + (c.toNat - 48)) 0

/-- Modelled from the spec: the numeric coercion applied to raw attribute
text (`stringstream >> float` in the source; the stream extraction operator
is C++ standard-library code, not part of this repository).  An unsigned
numeral: a nonempty digit run with an optional fractional part; trailing text
is ignored, as the extraction succeeds once a numeral has been consumed. -/
def parseUnsigned (cs : List Char) : Option ℚ :=
  let ip := cs.takeWhile Char.isDigit
  if ip.isEmpty then none
  else
    let rest := cs.dropWhile Char.isDigit
    let n : ℚ := (digitsToNat ip : ℚ)
    match rest with
    | '.' :: t =>
        let fp := t.takeWhile Char.isDigit
        some (n + (digitsToNat fp : ℚ) / (10 : ℚ) ^ fp.length)
    | _ => some n

/-- Modelled from the spec: numeric coercion of a whole raw attribute string,
with an optional leading sign. -/
def parseQ (s : String) : Option ℚ :=
  match s.toList with
  | '-' :: t => (parseUnsigned t).map (fun q => -q)
  | '+' :: t => parseUnsigned t
  | cs => parseUnsigned cs

/-- `exp2` of `<cmath>`, modelled over the reals. -/
noncomputable def exp2 (v : ℝ) : ℝ := (2 : ℝ) ^ v

/-! ### The value channel of the accessors -/

/-- How raw attribute payloads of type `α` coerce: `dflt` is the value an
unassigned slot holds, `toNum` is the numeric coercion of the accessors, and
`toBool` the literal-token match of `getBaseRenditionIsHdr`. -/
structure ValChannel (α : Type) where
  dflt : α
  toNum : α → Option ℝ
  toBool : α → Option Bool

/-- The real reader's channel: payloads are raw strings, numeric coercion is
the stream extraction, the boolean field matches the literals `"False"` and
`"True"` exactly (in that order, as in `getBaseRenditionIsHdr`). -/
noncomputable def stringChannel : ValChannel String :=
  ⟨"",
    fun s => (parseQ s).map (fun q => (q : ℝ)),
    fun s => if s = "False" then some false else if s = "True" then some true else none⟩

/-- Attribute values as written by the XmlWriter of the encoders: a numeric
value (written as its decimal text) or a literal string. -/
inductive XmpAttrVal where
  | num (x : ℝ)
  | str (s : String)

/-- Modelled collaborator contract: the value channel through the external
XmlWriter (float formatting) and the stream numeric parse.  A numeric
attribute value round-trips to the exact value it denotes (the spec allows
floating-point tolerance; the model works in exact real arithmetic), and the
boolean field matches string literals as in the source. -/
noncomputable def realChannel : ValChannel XmpAttrVal :=
  ⟨.str "",
    fun v => match v with
      | .num x => some x
      | .str s => (parseQ s).map (fun q => (q : ℝ)),
    fun v => match v with
      | .num _ => none
      | .str s => if s = "False" then some false else if s = "True" then some true else none⟩

/-! ### The metadata record and the decoder's field resolution -/

/-- `uhdr_gainmap_metadata_ext_t` (declared outside this repository's shown
source) as populated by `getMetadataFromXMP`: a version token and the seven
numeric fields.  `base_rendition_is_hdr` is modelled from the spec: the
source resolves it into a local variable and rejects `true`; the field
records the resolved value (always `false` on success). -/
structure MetadataG (α : Type) where
  version : α
  min_content_boost : ℝ
  max_content_boost : ℝ
  gamma : ℝ
  offset_sdr : ℝ
  offset_hdr : ℝ
  hdr_capacity_min : ℝ
  hdr_capacity_max : ℝ
  base_rendition_is_hdr : Bool

/-- Missing-required-attribute error: `"xml parse error, could not find
attribute %s"`. -/
def errCouldNotFind (n : String) : UhdrErrorInfo :=
  ⟨.UHDR_CODEC_ERROR, true, "xml parse error, could not find attribute " ++ n⟩

/-- Malformed-field error: `"xml parse error, unable to parse attribute
%s"`. -/
def errUnableToParse (n : String) : UhdrErrorInfo :=
  ⟨.UHDR_CODEC_ERROR, true, "xml parse error, unable to parse attribute " ++ n⟩

/-- The unsupported-semantic error for `baseRenditionIsHdr = true`. -/
def errBaseNotSupported : UhdrErrorInfo :=
  ⟨.UHDR_CODEC_ERROR, true, "hdr intent as base rendition is not supported"⟩

/-- The structural parse failure reported when the XML reader has errors. -/
def errXmlParseFail : UhdrErrorInfo :=
  ⟨.UHDR_CODEC_UNKNOWN_ERROR, true, "xml parser returned with error"⟩

/-- The `std::string nameSpace` local of `getMetadataFromXMP`: the literal
`"http://ns.adobe.com/xap/1.0/\0"` is truncated by the `std::string`
constructor at the embedded NUL, so the string holds exactly these 28
characters. -/
def nameSpaceStr : String := "http://ns.adobe.com/xap/1.0/"

/-- The too-short-input error of `getMetadataFromXMP`. -/
def errXmpTooSmall (n : ℕ) : UhdrErrorInfo :=
  ⟨.UHDR_CODEC_ERROR, true,
    "size of xmp block is expected to be atleast " ++ toString (nameSpaceStr.length + 2) ++
      " bytes, received only " ++ toString n ++ " bytes"⟩

/-- The namespace-mismatch error of `getMetadataFromXMP` (the detail prints
the expected constant and the first 28 input bytes). -/
def errNamespaceMismatch (got : List Char) : UhdrErrorInfo :=
  ⟨.UHDR_CODEC_ERROR, true,
    "mismatch in namespace of xmp block. Expected " ++ nameSpaceStr ++ ", Got " ++
      String.mk got⟩

/-- The accessor and field-resolution sequence of `getMetadataFromXMP` after
the reader has run (source lines 526-627), verbatim: the accessors are only
valid in state `Done` (otherwise the first, `getVersion`, fails and yields
the missing-version error); `Version`, `GainMapMax` and `HDRCapacityMax` are
required (a failed accessor or an absent attribute yields the could-not-find
error); the five optional numeric fields error only when present but
unparsable and default otherwise; the boolean field must match one of its two
literals, defaults to false when absent, and resolving `true` is rejected.
`GainMapMin`, `GainMapMax`, `HDRCapacityMin` and `HDRCapacityMax` are
exponentiated (base 2) by their accessors. -/
noncomputable def resolveHandlerG (C : ValChannel α) (h : XMPXmlHandlerG α) :
    Except UhdrErrorInfo (MetadataG α) :=
  match h.state with
  | .NotStrarted => .error (errCouldNotFind kMapVersion)
  | .Started => .error (errCouldNotFind kMapVersion)
  | .Done =>
    if !h.versionFound then .error (errCouldNotFind kMapVersion)
    else
      match (C.toNum h.maxContentBoostStr).map exp2, h.maxContentBoostFound with
      | none, _ => .error (errCouldNotFind kMapGainMapMax)
      | some _, false => .error (errCouldNotFind kMapGainMapMax)
      | some max_content_boost, true =>
        match (C.toNum h.hdrCapacityMaxStr).map exp2, h.hdrCapacityMaxFound with
        | none, _ => .error (errCouldNotFind kMapHDRCapacityMax)
        | some _, false => .error (errCouldNotFind kMapHDRCapacityMax)
        | some hdr_capacity_max, true =>
          let mcb := (C.toNum h.minContentBoostStr).map exp2
          if mcb.isNone && h.minContentBoostFound then
            .error (errUnableToParse kMapGainMapMin)
          else
            let min_content_boost := mcb.getD 1
            let gam := C.toNum h.gammaStr
            if gam.isNone && h.gammaFound then .error (errUnableToParse kMapGamma)
            else
              let gamma := gam.getD 1
              let osd := C.toNum h.offsetSdrStr
              if osd.isNone && h.offsetSdrFound then .error (errUnableToParse kMapOffsetSdr)
              else
                let offset_sdr := osd.getD (1 / 64)
                let ohd := C.toNum h.offsetHdrStr
                if ohd.isNone && h.offsetHdrFound then .error (errUnableToParse kMapOffsetHdr)
                else
                  let offset_hdr := ohd.getD (1 / 64)
                  let hcm := (C.toNum h.hdrCapacityMinStr).map exp2
                  if hcm.isNone && h.hdrCapacityMinFound then
                    .error (errUnableToParse kMapHDRCapacityMin)
                  else
                    let hdr_capacity_min := hcm.getD 1
                    let brh := C.toBool h.baseRenditionIsHdrStr
                    if brh.isNone && h.baseRenditionIsHdrFound then
                      .error (errUnableToParse kMapBaseRenditionIsHDR)
                    else
                      let base_rendition_is_hdr := brh.getD false
                      if base_rendition_is_hdr then .error errBaseNotSupported
                      else
                        .ok ⟨h.versionStr, min_content_boost, max_content_boost, gamma,
                          offset_sdr, offset_hdr, hdr_capacity_min, hdr_capacity_max, false⟩

/-! ### Packet preprocessing and the full decoder -/

/-- The packet-header scan of `getMetadataFromXMP`: the first index `i` with
`data[i] = a` and `data[i + 1] ≠ b`, scanning adjacent pairs; `none` when no
such pair exists (the source then leaves its offset at 0). -/
def scanPair (a b : Char) : ℕ → List Char → Option ℕ
  | _, [] => none
  | _, [_] => none
  | i, c1 :: c2 :: rest =>
      if c1 = a ∧ c2 ≠ b then some i else scanPair a b (i + 1) (c2 :: rest)

/-- The padding-trim loop, on the reversed byte range: drop trailing bytes
while the last byte is not a closing angle bracket and more than one byte
remains. -/
def trimPadRev : List Char → List Char
  | [] => []
  | [c] => [c]
  | c :: rest => if c = '>' then c :: rest else trimPadRev rest

/-- `getMetadataFromXMP(uint8_t* xmp_data, size_t xmp_size, ...)`.  The byte
range is modelled as a character list; the external XML reader is the
parameter `xmlParse`, delivering the event stream of a packet (or `none` when
`reader.HasErrors()`).  Steps, from the source: size check against
`nameSpace.size() + 2`; 28-byte prefix comparison (`strncmp`); advance past
the declaration and its terminating byte; skip a leading processing
instruction; trim a trailing processing instruction; strip padding; parse;
resolve the scanned fields. -/
noncomputable def getMetadataFromXMP
    (xmlParse : List Char → Option (List (XmlEventG String))) (xmp : List Char) :
    Except UhdrErrorInfo (MetadataG String) :=
  if xmp.length < nameSpaceStr.length + 2 then .error (errXmpTooSmall xmp.length)
  else if xmp.take nameSpaceStr.length ≠ nameSpaceStr.toList then
    .error (errNamespaceMismatch (xmp.take nameSpaceStr.length))
  else
    let d1 := xmp.drop (nameSpaceStr.length + 1)
    let d2 := match scanPair '<' '?' 0 d1 with
      | some i => d1.drop i
      | none => d1
    let d3 := match scanPair '>' '?' 0 d2.reverse with
      | some j => d2.take (d2.length - j)
      | none => d2
    let d4 := (trimPadRev d3.reverse).reverse
    match xmlParse d4 with
    | none => .error errXmlParseFail
    | some evs => resolveHandlerG stringChannel (runHandlerG "" evs)

/-- Projection of a decode result onto its error (decidable to compare,
unlike the success payload which carries reals). -/
def errOf (r : Except UhdrErrorInfo (MetadataG String)) : Option UhdrErrorInfo :=
  match r with
  | .error e => some e
  | .ok _ => none

/-! ### The encoders -/

/-- One call against the external XmlWriter, as issued by the encoders:
start an element, declare a namespace, write an attribute name/value pair,
finish elements back to a depth, or finish everything. -/
inductive WAct where
  | startElem (name : String)
  | xmlns (pfx : String) (uri : String)
  | attr (name : String) (value : XmpAttrVal)
  | finishToDepth (d : ℕ)
  | finishAll

/-- `generateXmpForPrimaryImage(size_t secondary_image_length, metadata)`:
the exact writer-call sequence of the source.  The depth token 5 models the
value `StartWritingElement("rdf:li")` returns (the external writer's depth
bookkeeping): finishing back to it closes the item and its list entry so the
second list entry is a sibling. -/
noncomputable def generateXmpForPrimaryImage (secondary_image_length : ℕ)
    (metadata : MetadataG String) : List WAct :=
  [.startElem "x:xmpmeta",
   .xmlns "x" "adobe:ns:meta/",
   .attr "x:xmptk" (.str "Adobe XMP Core 5.1.2"),
   .startElem "rdf:RDF",
   .xmlns "rdf" "http://www.w3.org/1999/02/22-rdf-syntax-ns#",
   .startElem containerName,
   .xmlns kContainerPfx kContainerUri,
   .xmlns kItemPfx kItemUri,
   .xmlns kGainMapPfx kGainMapUri,
   .attr kMapVersion (.str metadata.version),
   .startElem kConDirectory,
   .startElem "rdf:Seq",
   .startElem "rdf:li",
   .attr "rdf:parseType" (.str "Resource"),
   .startElem kConItem,
   .attr kItemSemantic (.str kSemanticPrimary),
   .attr kItemMime (.str kMimeImageJpeg),
   .finishToDepth 5,
   .startElem "rdf:li",
   .attr "rdf:parseType" (.str "Resource"),
   .startElem kConItem,
   .attr kItemSemantic (.str kSemanticGainMap),
   .attr kItemMime (.str kMimeImageJpeg),
   .attr kItemLength (.num (secondary_image_length : ℝ)),
   .finishAll]

/-- `generateXmpForSecondaryImage(metadata)`: the exact writer-call sequence
of the source.  The four log-encoded fields are written as `log2` of the
record's linear values; `BaseRenditionIsHDR` is always the literal
`"False"`. -/
noncomputable def generateXmpForSecondaryImage (metadata : MetadataG String) : List WAct :=
  [.startElem "x:xmpmeta",
   .xmlns "x" "adobe:ns:meta/",
   .attr "x:xmptk" (.str "Adobe XMP Core 5.1.2"),
   .startElem "rdf:RDF",
   .xmlns "rdf" "http://www.w3.org/1999/02/22-rdf-syntax-ns#",
   .startElem containerName,
   .xmlns kGainMapPfx kGainMapUri,
   .attr kMapVersion (.str metadata.version),
   .attr kMapGainMapMin (.num (Real.logb 2 metadata.min_content_boost)),
   .attr kMapGainMapMax (.num (Real.logb 2 metadata.max_content_boost)),
   .attr kMapGamma (.num metadata.gamma),
   .attr kMapOffsetSdr (.num metadata.offset_sdr),
   .attr kMapOffsetHdr (.num metadata.offset_hdr),
   .attr kMapHDRCapacityMin (.num (Real.logb 2 metadata.hdr_capacity_min)),
   .attr kMapHDRCapacityMax (.num (Real.logb 2 metadata.hdr_capacity_max)),
   .attr kMapBaseRenditionIsHDR (.str "False"),
   .finishAll]

/-- The attribute names a writer-call sequence emits through
`WriteAttributeNameAndValue`, in order. -/
def attrNames (acts : List WAct) : List String :=
  acts.filterMap fun a => match a with
    | .attr n _ => some n
    | _ => none

/-- Modelled collaborator contract: the event stream the external XML reader
delivers when re-reading the markup the external XmlWriter produced for a
writer-call sequence.  `d` tracks the number of open elements; namespace
declarations re-appear as `xmlns:`-prefixed attributes. -/
def actEvents (d : ℕ) : WAct → List (XmlEventG XmpAttrVal) × ℕ
  | .startElem n => ([.startElement (some n)], d + 1)
  | .xmlns p u => ([.attributeName (some ("xmlns:" ++ p)), .attributeValue (some (.str u))], d)
  | .attr n v => ([.attributeName (some n), .attributeValue (some v)], d)
  | .finishToDepth k => (List.replicate (d - k) .finishElement, k)
  | .finishAll => (List.replicate d .finishElement, 0)

/-- All events of a writer-call sequence, starting with no open elements. -/
def eventsOfActions (acts : List WAct) : List (XmlEventG XmpAttrVal) :=
  (acts.foldl (fun p a => (p.1 ++ (actEvents p.2 a).1, (actEvents p.2 a).2)) ([], 0)).1

/-- The nine `(value, found)` slots of two handler states agree. -/
def sameSlots (h g : XMPXmlHandlerG α) : Prop :=
  g.versionStr = h.versionStr ∧ g.versionFound = h.versionFound ∧
  g.maxContentBoostStr = h.maxContentBoostStr ∧
  g.maxContentBoostFound = h.maxContentBoostFound ∧
  g.minContentBoostStr = h.minContentBoostStr ∧
  g.minContentBoostFound = h.minContentBoostFound ∧
  g.gammaStr = h.gammaStr ∧ g.gammaFound = h.gammaFound ∧
  g.offsetSdrStr = h.offsetSdrStr ∧ g.offsetSdrFound = h.offsetSdrFound ∧
  g.offsetHdrStr = h.offsetHdrStr ∧ g.offsetHdrFound = h.offsetHdrFound ∧
  g.hdrCapacityMinStr = h.hdrCapacityMinStr ∧
  g.hdrCapacityMinFound = h.hdrCapacityMinFound ∧
  g.hdrCapacityMaxStr = h.hdrCapacityMaxStr ∧
  g.hdrCapacityMaxFound = h.hdrCapacityMaxFound ∧
  g.baseRenditionIsHdrStr = h.baseRenditionIsHdrStr ∧
  g.baseRenditionIsHdrFound = h.baseRenditionIsHdrFound

/-- No attribute has been recorded. -/
def noneFound (h : XMPXmlHandlerG α) : Prop :=
  h.versionFound = false ∧ h.maxContentBoostFound = false ∧
  h.minContentBoostFound = false ∧ h.gammaFound = false ∧
  h.offsetSdrFound = false ∧ h.offsetHdrFound = false ∧
  h.hdrCapacityMinFound = false ∧ h.hdrCapacityMaxFound = false ∧
  h.baseRenditionIsHdrFound = false

/-- Events exhibiting a second occurrence of the target element after the
first has closed. -/
def c7CexEvents : List (XmlEventG String) :=
  [.startElement (some "rdf:Description"), .finishElement,
   .startElement (some "rdf:Description"),
   .attributeName (some "hdrgm:Gamma"), .attributeValue (some "7")]

/-- A slot whose found flag is unset still holds the payload default (the
handler only ever assigns a slot together with its flag). -/
def blankInv (d : α) (h : XMPXmlHandlerG α) : Prop :=
  (h.versionFound = false → h.versionStr = d) ∧
  (h.maxContentBoostFound = false → h.maxContentBoostStr = d) ∧
  (h.minContentBoostFound = false → h.minContentBoostStr = d) ∧
  (h.gammaFound = false → h.gammaStr = d) ∧
  (h.offsetSdrFound = false → h.offsetSdrStr = d) ∧
  (h.offsetHdrFound = false → h.offsetHdrStr = d) ∧
  (h.hdrCapacityMinFound = false → h.hdrCapacityMinStr = d) ∧
  (h.hdrCapacityMaxFound = false → h.hdrCapacityMaxStr = d) ∧
  (h.baseRenditionIsHdrFound = false → h.baseRenditionIsHdrStr = d)

/-- C4 counterexample input: the 28 namespace characters followed by two
further bytes, 30 bytes in all. -/
def c4CexInput : List Char := nameSpaceStr.toList ++ ['A', 'B']

/-- Events of a packet carrying the three required attributes and nothing
else. -/
def c1AllRequiredEvents : List (XmlEventG String) :=
  [.startElement (some containerName),
   .attributeName (some kMapVersion), .attributeValue (some "1.0"),
   .attributeName (some kMapGainMapMax), .attributeValue (some "2.5"),
   .attributeName (some kMapHDRCapacityMax), .attributeValue (some "3"),
   .finishElement]

/-- Events of a packet missing `hdrgm:Version`. -/
def c1NoVersionEvents : List (XmlEventG String) :=
  [.startElement (some containerName),
   .attributeName (some kMapGainMapMax), .attributeValue (some "2.5"),
   .finishElement]

/-- Events of a packet missing `hdrgm:GainMapMax`. -/
def c1NoMaxEvents : List (XmlEventG String) :=
  [.startElement (some containerName),
   .attributeName (some kMapVersion), .attributeValue (some "1.0"),
   .finishElement]

/-- Events of a packet missing `hdrgm:HDRCapacityMax`. -/
def c1NoCapacityEvents : List (XmlEventG String) :=
  [.startElement (some containerName),
   .attributeName (some kMapVersion), .attributeValue (some "1.0"),
   .attributeName (some kMapGainMapMax), .attributeValue (some "2.5"),
   .finishElement]

/-- Events with the required attributes and `BaseRenditionIsHDR="True"`. -/
def c3TrueEvents : List (XmlEventG String) :=
  [.startElement (some containerName),
   .attributeName (some kMapVersion), .attributeValue (some "1.0"),
   .attributeName (some kMapGainMapMax), .attributeValue (some "2.5"),
   .attributeName (some kMapHDRCapacityMax), .attributeValue (some "3"),
   .attributeName (some kMapBaseRenditionIsHDR), .attributeValue (some "True"),
   .finishElement]

/-- Events with the required attributes and `BaseRenditionIsHDR="False"`. -/
def c3FalseEvents : List (XmlEventG String) :=
  [.startElement (some containerName),
   .attributeName (some kMapVersion), .attributeValue (some "1.0"),
   .attributeName (some kMapGainMapMax), .attributeValue (some "2.5"),
   .attributeName (some kMapHDRCapacityMax), .attributeValue (some "3"),
   .attributeName (some kMapBaseRenditionIsHDR), .attributeValue (some "False"),
   .finishElement]

/-- Events with the required attributes and a malformed
`BaseRenditionIsHDR`. -/
def c3BadEvents : List (XmlEventG String) :=
  [.startElement (some containerName),
   .attributeName (some kMapVersion), .attributeValue (some "1.0"),
   .attributeName (some kMapGainMapMax), .attributeValue (some "2.5"),
   .attributeName (some kMapHDRCapacityMax), .attributeValue (some "3"),
   .attributeName (some kMapBaseRenditionIsHDR), .attributeValue (some "Maybe"),
   .finishElement]

/-- Events with the required attributes and `BaseRenditionIsHDR` absent. -/
def c3AbsentEvents : List (XmlEventG String) :=
  [.startElement (some containerName),
   .attributeName (some kMapVersion), .attributeValue (some "1.0"),
   .attributeName (some kMapGainMapMax), .attributeValue (some "2.5"),
   .attributeName (some kMapHDRCapacityMax), .attributeValue (some "3"),
   .finishElement]

/-- Events carrying an unparsable `hdrgm:GainMapMax`. -/
def c10BadMaxEvents : List (XmlEventG String) :=
  [.startElement (some containerName),
   .attributeName (some kMapVersion), .attributeValue (some "1.0"),
   .attributeName (some kMapGainMapMax), .attributeValue (some "x"),
   .finishElement]

/-- Events carrying an unparsable `hdrgm:HDRCapacityMax`. -/
def c10BadCapacityEvents : List (XmlEventG String) :=
  [.startElement (some containerName),
   .attributeName (some kMapVersion), .attributeValue (some "1.0"),
   .attributeName (some kMapGainMapMax), .attributeValue (some "2.5"),
   .attributeName (some kMapHDRCapacityMax), .attributeValue (some "x"),
   .finishElement]

/-- A concrete valid record used by the C2 witness. -/
noncomputable def c2WitnessRecord : MetadataG String :=
  ⟨"1.0", 2, 4, 1, 1 / 64, 1 / 64, 1, 8, false⟩

/-- A concrete record used by the C9 witness. -/
noncomputable def c9WitnessRecord : MetadataG String :=
  ⟨"1.0", 1, 1000, 1, 1 / 64, 1 / 64, 1, 2, false⟩

/-! ## Theorems -/

/-! ### Bounded buffer writer -/

theorem write_snd_writePos_ge (d : DataStruct) (src : List ℕ) :
    d.writePos ≤ ((d.write src).2).writePos := by
  unfold DataStruct.write
  split
  · exact le_rfl
  · exact Nat.le_add_right _ _

theorem write_snd_length (d : DataStruct) (src : List ℕ) :
    ((d.write src).2).length = d.length := by
  unfold DataStruct.write
  split <;> rfl

theorem write_snd_le (d : DataStruct) (src : List ℕ) (h : d.writePos ≤ d.length) :
    ((d.write src).2).writePos ≤ ((d.write src).2).length := by
  unfold DataStruct.write
  split
  · exact h
  · next hc => exact Nat.le_of_not_lt hc

theorem applyOp_writePos_ge (d : DataStruct) (op : WriteOp) :
    d.writePos ≤ (applyOp d op).writePos := by
  cases op <;> exact write_snd_writePos_ge d _

theorem applyOp_inv (d : DataStruct) (op : WriteOp) (h : d.writePos ≤ d.length) :
    (applyOp d op).writePos ≤ (applyOp d op).length ∧ (applyOp d op).length = d.length := by
  cases op <;> exact ⟨write_snd_le d _ h, write_snd_length d _⟩

theorem runOps_inv (c : ℕ) (ops : List WriteOp) :
    (runOps c ops).writePos ≤ (runOps c ops).length ∧ (runOps c ops).length = c := by
  have main : ∀ (l : List WriteOp) (d : DataStruct), d.writePos ≤ d.length →
      (l.foldl applyOp d).writePos ≤ (l.foldl applyOp d).length ∧
      (l.foldl applyOp d).length = d.length := by
    intro l
    induction l with
    | nil => exact fun d hd => ⟨hd, rfl⟩
    | cons op t ih =>
      intro d hd
      obtain ⟨ha, hb⟩ := applyOp_inv d op hd
      obtain ⟨h1, h2⟩ := ih (applyOp d op) ha
      exact ⟨h1, h2.trans hb⟩
  have h0 : (DataStruct.init c).writePos ≤ (DataStruct.init c).length := Nat.zero_le _
  exact main ops (DataStruct.init c) h0

/-- C5: for every DataStruct write operation (`write8`, `write16`, `write32`,
`write`) at cursor `p` with capacity `c`: if `p + requestedSize > c` the
operation returns false and leaves the cursor and the buffer unchanged;
otherwise it copies the bytes, advances the cursor by exactly the requested
size, and returns true, so writing exactly up to capacity brings
`getBytesWritten` to `getLength`. -/
theorem c5_write_bounds (d : DataStruct) (src : List ℕ) (v : ℕ) :
    (d.length < d.writePos + src.length → d.write src = (false, d)) ∧
    (d.writePos + src.length ≤ d.length →
      d.write src =
        (true, ⟨listWriteAt d.data d.writePos src, d.length, d.writePos + src.length⟩)) ∧
    (d.writePos + src.length = d.length →
      (d.write src).1 = true ∧ ((d.write src).2).getBytesWritten = d.getLength) ∧
    (d.length < d.writePos + 1 → d.write8 v = (false, d)) ∧
    (d.length < d.writePos + 2 → d.write16 v = (false, d)) ∧
    (d.length < d.writePos + 4 → d.write32 v = (false, d)) ∧
    (d.writePos + 1 ≤ d.length →
      (d.write8 v).1 = true ∧ ((d.write8 v).2).writePos = d.writePos + 1) ∧
    (d.writePos + 2 ≤ d.length →
      (d.write16 v).1 = true ∧ ((d.write16 v).2).writePos = d.writePos + 2) ∧
    (d.writePos + 4 ≤ d.length →
      (d.write32 v).1 = true ∧ ((d.write32 v).2).writePos = d.writePos + 4) := by
  refine ⟨?_, ?_, ?_, ?_, ?_, ?_, ?_, ?_, ?_⟩ <;> intro h
  · simp [DataStruct.write, h]
  · simp [DataStruct.write, Nat.not_lt.mpr h]
  · have h2 : ¬ d.length < d.writePos + src.length := Nat.not_lt.mpr h.le
    simp [DataStruct.write, DataStruct.getBytesWritten, DataStruct.getLength, h2, h]
  · simp [DataStruct.write8, DataStruct.write, h]
  · simp [DataStruct.write16, DataStruct.write, h]
  · simp [DataStruct.write32, DataStruct.write, h]
  · simp [DataStruct.write8, DataStruct.write, Nat.not_lt.mpr h]
  · simp [DataStruct.write16, DataStruct.write, Nat.not_lt.mpr h]
  · simp [DataStruct.write32, DataStruct.write, Nat.not_lt.mpr h]

/-- Witness for C5 at concrete inputs: a two-byte write into a one-byte
buffer fails without mutation; the same write into a two-byte buffer
succeeds, fills it, and brings the cursor to capacity; a `write8` past
capacity fails. -/
theorem c5_write_bounds_witness :
    ((DataStruct.init 1).write [7, 8] = (false, DataStruct.init 1)) ∧
    ((DataStruct.init 2).write [7, 8] = (true, ⟨[7, 8], 2, 2⟩)) ∧
    (((DataStruct.init 2).write [7, 8]).1 = true ∧
      (((DataStruct.init 2).write [7, 8]).2).getBytesWritten = (DataStruct.init 2).getLength) ∧
    ((DataStruct.init 0).write8 9 = (false, DataStruct.init 0)) := by
  refine ⟨?_, ?_, ?_, ?_⟩
  · exact (c5_write_bounds (DataStruct.init 1) [7, 8] 0).1 (by decide)
  · have h := (c5_write_bounds (DataStruct.init 2) [7, 8] 0).2.1 (by decide)
    simpa [DataStruct.init, listWriteAt] using h
  · exact (c5_write_bounds (DataStruct.init 2) [7, 8] 0).2.2.1 (by decide)
  · exact (c5_write_bounds (DataStruct.init 0) [7, 8] 9).2.2.2.1 (by decide)

/-- C6: the free-standing `Write(destination, source, length, position)`:
on `position + length > destination.capacity` it returns a structured error
with the memory-class code and the formatted detail, leaving the destination
and the cursor unchanged; otherwise it copies the bytes at `position`,
advances the cursor by the length, and returns the no-error value. -/
theorem c6_free_write (destination : UhdrCompressedImage) (source : List ℕ) (position : ℕ) :
    (destination.capacity < position + source.length →
      Write destination source position =
        (memError position source.length destination.capacity, destination, position) ∧
      (memError position source.length destination.capacity).error_code =
        .UHDR_CODEC_MEM_ERROR ∧
      (memError position source.length destination.capacity).has_detail = true ∧
      (memError position source.length destination.capacity).detail =
        memErrDetail position source.length destination.capacity) ∧
    (position + source.length ≤ destination.capacity →
      Write destination source position =
        (g_no_error,
          ⟨listWriteAt destination.data position source, destination.capacity⟩,
          position + source.length)) := by
  constructor
  · intro h
    refine ⟨?_, rfl, rfl, rfl⟩
    simp [Write, h]
  · intro h
    simp [Write, Nat.not_lt.mpr h]

/-- Witness for C6 at concrete inputs: overflow and success cases. -/
theorem c6_free_write_witness :
    (Write ⟨[0], 1⟩ [7, 8] 0 = (memError 0 2 1, ⟨[0], 1⟩, 0)) ∧
    (Write ⟨[0, 0], 2⟩ [7, 8] 0 = (g_no_error, ⟨[7, 8], 2⟩, 2)) := by
  constructor
  · exact ((c6_free_write ⟨[0], 1⟩ [7, 8] 0).1 (by decide)).1
  · have h := (c6_free_write ⟨[0, 0], 2⟩ [7, 8] 0).2 (by decide)
    simpa [listWriteAt] using h

/-- C8: across every sequence of `write8`/`write16`/`write32`/`write` calls
on a `DataStruct` of capacity `c`, the cursor only advances and never exceeds
`getLength = c`, for arbitrary requested sizes. -/
theorem c8_cursor_monotone_bounded :
    (∀ (d : DataStruct) (op : WriteOp), d.writePos ≤ (applyOp d op).writePos) ∧
    (∀ (c : ℕ) (ops : List WriteOp),
      (runOps c ops).getBytesWritten ≤ (runOps c ops).getLength ∧
      (runOps c ops).getLength = c) :=
  ⟨applyOp_writePos_ge, fun c ops => runOps_inv c ops⟩

/-! ### Scanner state machine -/

/-- Any event received while the scanner is not in `Started` leaves all nine
slots untouched. -/
theorem stepG_sameSlots (h : XMPXmlHandlerG α) (e : XmlEventG α)
    (hs : h.state ≠ .Started) : sameSlots h (stepG h e) := by
  have triv : sameSlots h h := by
    simp [sameSlots]
  cases e with
  | startElement v =>
    cases v with
    | none => exact triv
    | some val =>
      simp only [stepG]
      split_ifs <;> simp [sameSlots]
  | finishElement =>
    simp only [stepG]
    split_ifs <;> simp [sameSlots]
  | attributeName v =>
    cases v with
    | none => exact triv
    | some val =>
      simp only [stepG]
      rw [if_neg hs]
      exact triv
  | attributeValue v =>
    cases v with
    | none => exact triv
    | some val =>
      simp only [stepG]
      rw [if_neg hs]
      exact triv

/-- Without a start of the target element, the scanner never leaves
`NotStrarted` and records nothing. -/
theorem runHandlerG_no_container (d : α) (evs : List (XmlEventG α))
    (hno : XmlEventG.startElement (some containerName) ∉ evs) :
    (runHandlerG d evs).state = .NotStrarted ∧ noneFound (runHandlerG d evs) := by
  have main : ∀ (l : List (XmlEventG α)) (h : XMPXmlHandlerG α),
      XmlEventG.startElement (some containerName) ∉ l →
      h.state = .NotStrarted → noneFound h →
      (l.foldl stepG h).state = .NotStrarted ∧ noneFound (l.foldl stepG h) := by
    intro l
    induction l with
    | nil => exact fun h _ hst hnf => ⟨hst, hnf⟩
    | cons e t ih =>
      intro h hmem hst hnf
      have hmem1 : e ≠ XmlEventG.startElement (some containerName) := by
        intro heq
        exact hmem (by rw [heq]; exact List.mem_cons_self _ _)
      have hmem2 : XmlEventG.startElement (some containerName) ∉ t := by
        intro hin
        exact hmem (List.mem_cons_of_mem _ hin)
      have hstep : (stepG h e).state = .NotStrarted ∧ noneFound (stepG h e) := by
        cases e with
        | startElement v =>
          cases v with
          | none => exact ⟨hst, hnf⟩
          | some val =>
            have hval : val ≠ containerName := by
              intro hv
              exact hmem1 (by rw [hv])
            simp only [stepG]
            rw [if_neg hval, if_pos]
            · refine ⟨rfl, ?_⟩
              simpa [noneFound] using hnf
            · rw [hst]
              simp
        | finishElement =>
          simp only [stepG]
          rw [if_neg]
          · exact ⟨hst, hnf⟩
          · rw [hst]
            simp
        | attributeName v =>
          cases v with
          | none => exact ⟨hst, hnf⟩
          | some val =>
            simp only [stepG]
            rw [if_neg]
            · exact ⟨hst, hnf⟩
            · rw [hst]
              simp
        | attributeValue v =>
          cases v with
          | none => exact ⟨hst, hnf⟩
          | some val =>
            simp only [stepG]
            rw [if_neg]
            · exact ⟨hst, hnf⟩
            · rw [hst]
              simp
      exact ih (stepG h e) hmem2 hstep.1 hstep.2
  exact main evs (initHandler d) hno rfl (by simp [initHandler, noneFound])

/-- C7 counterexample: the claim says that once the scanner state reaches
`Done` all subsequent elements are ignored and no further attribute is ever
recorded; but after the target element closes (state `Done` after the first
two events), a second `rdf:Description` re-enters `Started` and its
`hdrgm:Gamma` attribute IS recorded. -/
theorem c7_counterexample :
    (runHandlerG "" (List.take 2 c7CexEvents)).state = ParseState.Done ∧
    (runHandlerG "" c7CexEvents).gammaFound = true ∧
    (runHandlerG "" c7CexEvents).gammaStr = "7" := by
  decide

/-- C7 amended: attribute values are stored in one of the nine slots only
while the scanner is in state `Started`: any event arriving while the state
is `NotStrarted` or `Done` leaves every slot unchanged, and a stream that
never starts the target element records nothing.  (The original claim's
"once `Done`, all subsequent elements are ignored" does not hold: a second
occurrence of the target element re-enters `Started`, as the counterexample
shows.) -/
theorem c7_amended :
    (∀ (h : XMPXmlHandlerG String) (e : XmlEventG String),
      h.state ≠ .Started → sameSlots h (stepG h e)) ∧
    (∀ evs : List (XmlEventG String),
      XmlEventG.startElement (some containerName) ∉ evs →
      noneFound (runHandlerG "" evs)) :=
  ⟨fun h e hs => stepG_sameSlots h e hs,
   fun evs hno => (runHandlerG_no_container "" evs hno).2⟩

/-- Witness for C7 (amended) at concrete inputs: an attribute-value event on
a fresh handler (state `NotStrarted`) changes no slot, and a stream with no
target element records nothing. -/
theorem c7_amended_witness :
    sameSlots (initHandler "") (stepG (initHandler "") (.attributeValue (some "2.5"))) ∧
    noneFound (runHandlerG ""
      [.startElement (some "x:other"), .attributeName (some "hdrgm:Gamma"),
       .attributeValue (some "7")]) :=
  ⟨c7_amended.1 (initHandler "") (.attributeValue (some "2.5")) (by decide),
   c7_amended.2 _ (by decide)⟩

set_option maxHeartbeats 2000000 in
theorem stepG_blankInv (d : α) (h : XMPXmlHandlerG α) (e : XmlEventG α)
    (hi : blankInv d h) : blankInv d (stepG h e) := by
  cases e with
  | startElement v =>
    cases v with
    | none => exact hi
    | some val =>
      simp only [stepG]
      split_ifs <;> exact hi
  | finishElement =>
    simp only [stepG]
    split_ifs <;> exact hi
  | attributeName v =>
    cases v with
    | none => exact hi
    | some val =>
      simp only [stepG]
      split_ifs <;> exact hi
  | attributeValue v =>
    cases v with
    | none => exact hi
    | some val =>
      obtain ⟨i1, i2, i3, i4, i5, i6, i7, i8, i9⟩ := hi
      simp only [stepG]
      split_ifs
      · exact ⟨fun hf => Bool.noConfusion hf, i2, i3, i4, i5, i6, i7, i8, i9⟩
      · exact ⟨i1, fun hf => Bool.noConfusion hf, i3, i4, i5, i6, i7, i8, i9⟩
      · exact ⟨i1, i2, fun hf => Bool.noConfusion hf, i4, i5, i6, i7, i8, i9⟩
      · exact ⟨i1, i2, i3, fun hf => Bool.noConfusion hf, i5, i6, i7, i8, i9⟩
      · exact ⟨i1, i2, i3, i4, fun hf => Bool.noConfusion hf, i6, i7, i8, i9⟩
      · exact ⟨i1, i2, i3, i4, i5, fun hf => Bool.noConfusion hf, i7, i8, i9⟩
      · exact ⟨i1, i2, i3, i4, i5, i6, fun hf => Bool.noConfusion hf, i8, i9⟩
      · exact ⟨i1, i2, i3, i4, i5, i6, i7, fun hf => Bool.noConfusion hf, i9⟩
      · exact ⟨i1, i2, i3, i4, i5, i6, i7, i8, fun hf => Bool.noConfusion hf⟩
      · exact ⟨i1, i2, i3, i4, i5, i6, i7, i8, i9⟩
      · exact ⟨i1, i2, i3, i4, i5, i6, i7, i8, i9⟩

theorem runHandlerG_blankInv (d : α) (evs : List (XmlEventG α)) :
    blankInv d (runHandlerG d evs) := by
  have main : ∀ (l : List (XmlEventG α)) (h : XMPXmlHandlerG α),
      blankInv d h → blankInv d (l.foldl stepG h) := by
    intro l
    induction l with
    | nil => exact fun h hh => hh
    | cons e t ih => exact fun h hh => ih (stepG h e) (stepG_blankInv d h e hh)
  refine main evs (initHandler d) ?_
  simp [initHandler, blankInv]

/-- The literal attribute-name constants coincide with the source's
`Name(prefix, suffix)` applications. -/
theorem constants_built_by_Name :
    kConDirectory = Name kContainerPfx "Directory" ∧
    kConItem = Name kContainerPfx "Item" ∧
    kItemLength = Name kItemPfx "Length" ∧
    kItemMime = Name kItemPfx "Mime" ∧
    kItemSemantic = Name kItemPfx "Semantic" ∧
    kMapVersion = Name kGainMapPfx "Version" ∧
    kMapGainMapMin = Name kGainMapPfx "GainMapMin" ∧
    kMapGainMapMax = Name kGainMapPfx "GainMapMax" ∧
    kMapGamma = Name kGainMapPfx "Gamma" ∧
    kMapOffsetSdr = Name kGainMapPfx "OffsetSDR" ∧
    kMapOffsetHdr = Name kGainMapPfx "OffsetHDR" ∧
    kMapHDRCapacityMin = Name kGainMapPfx "HDRCapacityMin" ∧
    kMapHDRCapacityMax = Name kGainMapPfx "HDRCapacityMax" ∧
    kMapBaseRenditionIsHDR = Name kGainMapPfx "BaseRenditionIsHDR" := by
  decide

/-! ### Namespace and size checks of the decoder (C4) -/

/-- C4 counterexample: the claim requires a format-class error whenever the
input is shorter than the namespace constant plus a NUL-equivalent byte plus
2 (31 bytes) or its leading bytes differ from that 29-byte declaration.  This
30-byte input is shorter than 31 and its byte at index 28 is not
NUL-equivalent, yet the code accepts the size (its threshold is 28 + 2) and
the prefix (it compares only 28 bytes), and the call fails in the XML parser
instead, with the unknown-class code rather than a format-class error. -/
theorem c4_counterexample :
    c4CexInput.length = 30 ∧
    c4CexInput.length < nameSpaceStr.length + 1 + 2 ∧
    errOf (getMetadataFromXMP (fun _ => none) c4CexInput) = some errXmlParseFail ∧
    errXmlParseFail.error_code ≠ UhdrCodecErr.UHDR_CODEC_ERROR := by
  refine ⟨by decide, by decide, ?_, by decide⟩
  decide

/-- C4 (amended): `getMetadataFromXMP` returns a format-class error whenever
the byte range is shorter than the 28-character namespace constant plus 2
bytes, and whenever the leading 28 bytes do not match that constant
byte-for-byte, regardless of the validity of the rest of the packet; the
NUL-equivalent byte after the constant is skipped but takes no part in the
size threshold or in the comparison. -/
theorem c4_amended (xmlParse : List Char → Option (List (XmlEventG String)))
    (xmp : List Char) :
    (xmp.length < nameSpaceStr.length + 2 →
      getMetadataFromXMP xmlParse xmp = .error (errXmpTooSmall xmp.length)) ∧
    (nameSpaceStr.length + 2 ≤ xmp.length →
      xmp.take nameSpaceStr.length ≠ nameSpaceStr.toList →
      getMetadataFromXMP xmlParse xmp =
        .error (errNamespaceMismatch (xmp.take nameSpaceStr.length))) ∧
    (errXmpTooSmall xmp.length).error_code = UhdrCodecErr.UHDR_CODEC_ERROR ∧
    (errNamespaceMismatch (xmp.take nameSpaceStr.length)).error_code =
      UhdrCodecErr.UHDR_CODEC_ERROR := by
  refine ⟨?_, ?_, rfl, rfl⟩
  · intro h
    simp [getMetadataFromXMP, h]
  · intro h1 h2
    unfold getMetadataFromXMP
    rw [if_neg (Nat.not_lt.mpr h1), if_pos h2]

/-- Witness for C4 (amended) at concrete inputs: the empty input yields the
size error; a 30-byte input of repeated characters yields the namespace
mismatch error. -/
theorem c4_amended_witness :
    getMetadataFromXMP (fun _ => none) [] = .error (errXmpTooSmall 0) ∧
    getMetadataFromXMP (fun _ => none) (List.replicate 30 'a') =
      .error (errNamespaceMismatch ((List.replicate 30 'a').take 28)) :=
  ⟨(c4_amended (fun _ => none) []).1 (by decide),
   (c4_amended (fun _ => none) (List.replicate 30 'a')).2.1 (by decide) (by decide)⟩

/-! ### Field resolution of the decoder (C1, C3, C10) -/

theorem toNum_blank : stringChannel.toNum "" = none := rfl

theorem toBool_blank : stringChannel.toBool "" = none := rfl

theorem toBool_true : stringChannel.toBool "True" = some true := rfl

theorem toBool_false : stringChannel.toBool "False" = some false := rfl

theorem toBool_other (s : String) (h1 : s ≠ "False") (h2 : s ≠ "True") :
    stringChannel.toBool s = none := by
  simp [stringChannel, h1, h2]

/-- C1: for every metadata packet (scanned event stream) in which
`hdrgm:Version`, `hdrgm:GainMapMax` and `hdrgm:HDRCapacityMax` are present
and parsable and every optional attribute is absent, the decoder succeeds
and populates the record with `min_content_boost = 1`, `gamma = 1`,
`offset_sdr = offset_hdr = 1/64`, `hdr_capacity_min = 1` and
`base_rendition_is_hdr = false`; and a packet omitting any one of the three
required attributes yields an error whose detail names that attribute. -/
theorem c1_required_and_defaults (evs : List (XmlEventG String))
    (h : XMPXmlHandlerG String) (heq : h = runHandlerG "" evs) :
    (h.state = .Done → h.versionFound = true →
      h.maxContentBoostFound = true →
      (stringChannel.toNum h.maxContentBoostStr).isSome = true →
      h.hdrCapacityMaxFound = true →
      (stringChannel.toNum h.hdrCapacityMaxStr).isSome = true →
      h.minContentBoostFound = false → h.gammaFound = false →
      h.offsetSdrFound = false → h.offsetHdrFound = false →
      h.hdrCapacityMinFound = false → h.baseRenditionIsHdrFound = false →
      ∃ r, resolveHandlerG stringChannel h = .ok r ∧
        r.min_content_boost = 1 ∧ r.gamma = 1 ∧ r.offset_sdr = 1 / 64 ∧
        r.offset_hdr = 1 / 64 ∧ r.hdr_capacity_min = 1 ∧
        r.base_rendition_is_hdr = false) ∧
    (h.state = .Done → h.versionFound = false →
      resolveHandlerG stringChannel h = .error (errCouldNotFind kMapVersion)) ∧
    (h.state = .Done → h.versionFound = true → h.maxContentBoostFound = false →
      resolveHandlerG stringChannel h = .error (errCouldNotFind kMapGainMapMax)) ∧
    (h.state = .Done → h.versionFound = true → h.maxContentBoostFound = true →
      (stringChannel.toNum h.maxContentBoostStr).isSome = true →
      h.hdrCapacityMaxFound = false →
      resolveHandlerG stringChannel h = .error (errCouldNotFind kMapHDRCapacityMax)) := by
  have hbi : blankInv "" h := by
    rw [heq]
    exact runHandlerG_blankInv "" evs
  obtain ⟨b1, b2, b3, b4, b5, b6, b7, b8, b9⟩ := hbi
  refine ⟨?_, ?_, ?_, ?_⟩
  · intro hst hv hmf hmp hcf hcp hminf hgf hosf hohf hcmf hbf
    obtain ⟨mq, hmq⟩ := Option.isSome_iff_exists.mp hmp
    obtain ⟨cq, hcq⟩ := Option.isSome_iff_exists.mp hcp
    refine ⟨⟨h.versionStr, 1, exp2 mq, 1, 1 / 64, 1 / 64, 1, exp2 cq, false⟩,
      ?_, rfl, rfl, rfl, rfl, rfl, rfl⟩
    simp [resolveHandlerG, hst, hv, hmf, hcf, hmq, hcq, hminf, hgf, hosf, hohf,
      hcmf, hbf, b3 hminf, b4 hgf, b5 hosf, b6 hohf, b7 hcmf, b9 hbf, toNum_blank,
      toBool_blank]
  · intro hst hv
    simp [resolveHandlerG, hst, hv]
  · intro hst hv hmf
    simp [resolveHandlerG, hst, hv, hmf, b2 hmf, toNum_blank]
  · intro hst hv hmf hmp hcf
    obtain ⟨mq, hmq⟩ := Option.isSome_iff_exists.mp hmp
    simp [resolveHandlerG, hst, hv, hmf, hcf, hmq, b8 hcf, toNum_blank]

/-- Witness for C1 at concrete packets: all four cases of the theorem. -/
theorem c1_required_and_defaults_witness :
    (∃ r, resolveHandlerG stringChannel (runHandlerG "" c1AllRequiredEvents) = .ok r ∧
      r.min_content_boost = 1 ∧ r.gamma = 1 ∧ r.offset_sdr = 1 / 64 ∧
      r.offset_hdr = 1 / 64 ∧ r.hdr_capacity_min = 1 ∧
      r.base_rendition_is_hdr = false) ∧
    resolveHandlerG stringChannel (runHandlerG "" c1NoVersionEvents) =
      .error (errCouldNotFind kMapVersion) ∧
    resolveHandlerG stringChannel (runHandlerG "" c1NoMaxEvents) =
      .error (errCouldNotFind kMapGainMapMax) ∧
    resolveHandlerG stringChannel (runHandlerG "" c1NoCapacityEvents) =
      .error (errCouldNotFind kMapHDRCapacityMax) :=
  ⟨(c1_required_and_defaults c1AllRequiredEvents _ rfl).1 (by decide) (by decide)
      (by decide) rfl (by decide) rfl (by decide) (by decide) (by decide) (by decide)
      (by decide) (by decide),
   (c1_required_and_defaults c1NoVersionEvents _ rfl).2.1 (by decide) (by decide),
   (c1_required_and_defaults c1NoMaxEvents _ rfl).2.2.1 (by decide) (by decide)
      (by decide),
   (c1_required_and_defaults c1NoCapacityEvents _ rfl).2.2.2 (by decide) (by decide)
      (by decide) rfl (by decide)⟩

/-- C3: for a packet whose target element carries the required attributes and
no optional numeric attributes, the `hdrgm:BaseRenditionIsHDR` attribute
decodes as follows: the literal `"True"` yields the explicit not-supported
error; the literal `"False"` decodes successfully; any other literal (when
the attribute is present) yields the malformed-field error naming the
attribute; an absent attribute defaults to false and decoding succeeds. -/
theorem c3_base_rendition (evs : List (XmlEventG String))
    (h : XMPXmlHandlerG String) (heq : h = runHandlerG "" evs)
    (hst : h.state = .Done) (hv : h.versionFound = true)
    (hmf : h.maxContentBoostFound = true)
    (hmp : (stringChannel.toNum h.maxContentBoostStr).isSome = true)
    (hcf : h.hdrCapacityMaxFound = true)
    (hcp : (stringChannel.toNum h.hdrCapacityMaxStr).isSome = true)
    (hminf : h.minContentBoostFound = false) (hgf : h.gammaFound = false)
    (hosf : h.offsetSdrFound = false) (hohf : h.offsetHdrFound = false)
    (hcmf : h.hdrCapacityMinFound = false) :
    (h.baseRenditionIsHdrStr = "True" →
      resolveHandlerG stringChannel h = .error errBaseNotSupported) ∧
    (h.baseRenditionIsHdrStr = "False" →
      ∃ r, resolveHandlerG stringChannel h = .ok r ∧ r.base_rendition_is_hdr = false) ∧
    (h.baseRenditionIsHdrFound = true → h.baseRenditionIsHdrStr ≠ "False" →
      h.baseRenditionIsHdrStr ≠ "True" →
      resolveHandlerG stringChannel h = .error (errUnableToParse kMapBaseRenditionIsHDR)) ∧
    (h.baseRenditionIsHdrFound = false →
      ∃ r, resolveHandlerG stringChannel h = .ok r ∧
        r.base_rendition_is_hdr = false) := by
  have hbi : blankInv "" h := by
    rw [heq]
    exact runHandlerG_blankInv "" evs
  obtain ⟨b1, b2, b3, b4, b5, b6, b7, b8, b9⟩ := hbi
  obtain ⟨mq, hmq⟩ := Option.isSome_iff_exists.mp hmp
  obtain ⟨cq, hcq⟩ := Option.isSome_iff_exists.mp hcp
  refine ⟨?_, ?_, ?_, ?_⟩
  · intro hb
    simp [resolveHandlerG, hst, hv, hmf, hcf, hmq, hcq, hminf, hgf, hosf, hohf, hcmf,
      b3 hminf, b4 hgf, b5 hosf, b6 hohf, b7 hcmf, hb, toNum_blank, toBool_true]
  · intro hb
    refine ⟨⟨h.versionStr, 1, exp2 mq, 1, 1 / 64, 1 / 64, 1, exp2 cq, false⟩, ?_, rfl⟩
    simp [resolveHandlerG, hst, hv, hmf, hcf, hmq, hcq, hminf, hgf, hosf, hohf, hcmf,
      b3 hminf, b4 hgf, b5 hosf, b6 hohf, b7 hcmf, hb, toNum_blank, toBool_false]
  · intro hbf hne1 hne2
    simp [resolveHandlerG, hst, hv, hmf, hcf, hmq, hcq, hminf, hgf, hosf, hohf, hcmf,
      b3 hminf, b4 hgf, b5 hosf, b6 hohf, b7 hcmf, hbf, toNum_blank,
      toBool_other _ hne1 hne2]
  · intro hbf
    refine ⟨⟨h.versionStr, 1, exp2 mq, 1, 1 / 64, 1 / 64, 1, exp2 cq, false⟩, ?_, rfl⟩
    simp [resolveHandlerG, hst, hv, hmf, hcf, hmq, hcq, hminf, hgf, hosf, hohf, hcmf,
      hbf, b3 hminf, b4 hgf, b5 hosf, b6 hohf, b7 hcmf, b9 hbf, toNum_blank,
      toBool_blank]

/-- Witness for C3 at concrete packets: all four cases of the theorem. -/
theorem c3_base_rendition_witness :
    resolveHandlerG stringChannel (runHandlerG "" c3TrueEvents) =
      .error errBaseNotSupported ∧
    (∃ r, resolveHandlerG stringChannel (runHandlerG "" c3FalseEvents) = .ok r ∧
      r.base_rendition_is_hdr = false) ∧
    resolveHandlerG stringChannel (runHandlerG "" c3BadEvents) =
      .error (errUnableToParse kMapBaseRenditionIsHDR) ∧
    (∃ r, resolveHandlerG stringChannel (runHandlerG "" c3AbsentEvents) = .ok r ∧
      r.base_rendition_is_hdr = false) :=
  ⟨(c3_base_rendition c3TrueEvents _ rfl (by decide) (by decide) (by decide) rfl
      (by decide) rfl (by decide) (by decide) (by decide) (by decide) (by decide)).1
      (by decide),
   (c3_base_rendition c3FalseEvents _ rfl (by decide) (by decide) (by decide) rfl
      (by decide) rfl (by decide) (by decide) (by decide) (by decide) (by decide)).2.1
      (by decide),
   (c3_base_rendition c3BadEvents _ rfl (by decide) (by decide) (by decide) rfl
      (by decide) rfl (by decide) (by decide) (by decide) (by decide) (by decide)).2.2.1
      (by decide) (by decide) (by decide),
   (c3_base_rendition c3AbsentEvents _ rfl (by decide) (by decide) (by decide) rfl
      (by decide) rfl (by decide) (by decide) (by decide) (by decide) (by decide)).2.2.2
      (by decide)⟩

/-- C10: a required attribute (`hdrgm:GainMapMax` or `hdrgm:HDRCapacityMax`)
that is present in the target element but fails numeric coercion produces the
same missing-field error (detail: could not find the attribute) rather than
the distinct malformed-field error produced for malformed optional
attributes. -/
theorem c10_unparsable_required (evs : List (XmlEventG String))
    (h : XMPXmlHandlerG String) (_heq : h = runHandlerG "" evs) :
    (h.state = .Done → h.versionFound = true → h.maxContentBoostFound = true →
      stringChannel.toNum h.maxContentBoostStr = none →
      resolveHandlerG stringChannel h = .error (errCouldNotFind kMapGainMapMax)) ∧
    (h.state = .Done → h.versionFound = true → h.maxContentBoostFound = true →
      (stringChannel.toNum h.maxContentBoostStr).isSome = true →
      h.hdrCapacityMaxFound = true →
      stringChannel.toNum h.hdrCapacityMaxStr = none →
      resolveHandlerG stringChannel h = .error (errCouldNotFind kMapHDRCapacityMax)) ∧
    errCouldNotFind kMapGainMapMax ≠ errUnableToParse kMapGainMapMax ∧
    errCouldNotFind kMapHDRCapacityMax ≠ errUnableToParse kMapHDRCapacityMax := by
  refine ⟨?_, ?_, by decide, by decide⟩
  · intro hst hv hmf hmn
    simp [resolveHandlerG, hst, hv, hmf, hmn]
  · intro hst hv hmf hmp hcf hcn
    obtain ⟨mq, hmq⟩ := Option.isSome_iff_exists.mp hmp
    simp [resolveHandlerG, hst, hv, hmf, hcf, hmq, hcn]

/-- Witness for C10 at concrete packets: both required fields. -/
theorem c10_unparsable_required_witness :
    resolveHandlerG stringChannel (runHandlerG "" c10BadMaxEvents) =
      .error (errCouldNotFind kMapGainMapMax) ∧
    resolveHandlerG stringChannel (runHandlerG "" c10BadCapacityEvents) =
      .error (errCouldNotFind kMapHDRCapacityMax) :=
  ⟨(c10_unparsable_required c10BadMaxEvents _ rfl).1 (by decide) (by decide)
      (by decide) rfl,
   (c10_unparsable_required c10BadCapacityEvents _ rfl).2.1 (by decide) (by decide)
      (by decide) rfl (by decide) rfl⟩

/-! ### Encoder round trip (C2) and encoder determinism (C9) -/

set_option maxHeartbeats 2000000 in
/-- C2: decoding the standalone-parameters form produced by
`generateXmpForSecondaryImage` from a record `R` with
`base_rendition_is_hdr = false` and positive boost/capacity fields yields a
record equal to `R` (the version travels through the value channel): the
encoder writes `log2 x` for each boost/capacity field and the decoder applies
`exp2`, recovering `x` exactly in the real-valued model. -/
theorem c2_roundtrip (m : MetadataG String)
    (hbase : m.base_rendition_is_hdr = false)
    (h1 : 0 < m.min_content_boost) (h2 : 0 < m.max_content_boost)
    (h3 : 0 < m.hdr_capacity_min) (h4 : 0 < m.hdr_capacity_max) :
    resolveHandlerG realChannel
      (runHandlerG realChannel.dflt (eventsOfActions (generateXmpForSecondaryImage m))) =
    .ok ⟨XmpAttrVal.str m.version, m.min_content_boost, m.max_content_boost, m.gamma,
      m.offset_sdr, m.offset_hdr, m.hdr_capacity_min, m.hdr_capacity_max,
      m.base_rendition_is_hdr⟩ := by
  have step : resolveHandlerG realChannel
      (runHandlerG realChannel.dflt (eventsOfActions (generateXmpForSecondaryImage m))) =
      .ok ⟨XmpAttrVal.str m.version, exp2 (Real.logb 2 m.min_content_boost),
        exp2 (Real.logb 2 m.max_content_boost), m.gamma, m.offset_sdr, m.offset_hdr,
        exp2 (Real.logb 2 m.hdr_capacity_min), exp2 (Real.logb 2 m.hdr_capacity_max),
        false⟩ := by
    have hrun : runHandlerG realChannel.dflt
        (eventsOfActions (generateXmpForSecondaryImage m)) =
        ⟨.Done, .str m.version, true,
          .num (Real.logb 2 m.max_content_boost), true,
          .num (Real.logb 2 m.min_content_boost), true,
          .num m.gamma, true, .num m.offset_sdr, true, .num m.offset_hdr, true,
          .num (Real.logb 2 m.hdr_capacity_min), true,
          .num (Real.logb 2 m.hdr_capacity_max), true,
          .str "False", true, ""⟩ := by
      simp [runHandlerG, eventsOfActions, generateXmpForSecondaryImage, actEvents,
        List.foldl, initHandler, stepG, withLastAttr, storeVersion,
        storeMaxContentBoost, storeMinContentBoost, storeGamma, storeOffsetSdr,
        storeOffsetHdr, storeHdrCapacityMin, storeHdrCapacityMax,
        storeBaseRenditionIsHdr, realChannel, containerName, kMapVersion,
        kMapGainMapMin, kMapGainMapMax, kMapGamma, kMapOffsetSdr, kMapOffsetHdr,
        kMapHDRCapacityMin, kMapHDRCapacityMax, kMapBaseRenditionIsHDR,
        kGainMapPfx, kGainMapUri]
    rw [hrun]
    simp [resolveHandlerG, realChannel, exp2]
  rw [step, hbase]
  simp only [exp2]
  rw [Real.rpow_logb (by norm_num) (by norm_num) h1,
    Real.rpow_logb (by norm_num) (by norm_num) h2,
    Real.rpow_logb (by norm_num) (by norm_num) h3,
    Real.rpow_logb (by norm_num) (by norm_num) h4]

/-- Witness for C2 at a concrete record (boosts 2 and 4, capacities 1 and 8,
all positive). -/
theorem c2_roundtrip_witness :
    resolveHandlerG realChannel
      (runHandlerG realChannel.dflt
        (eventsOfActions (generateXmpForSecondaryImage c2WitnessRecord))) =
    .ok ⟨XmpAttrVal.str c2WitnessRecord.version, c2WitnessRecord.min_content_boost,
      c2WitnessRecord.max_content_boost, c2WitnessRecord.gamma,
      c2WitnessRecord.offset_sdr, c2WitnessRecord.offset_hdr,
      c2WitnessRecord.hdr_capacity_min, c2WitnessRecord.hdr_capacity_max,
      c2WitnessRecord.base_rendition_is_hdr⟩ :=
  c2_roundtrip c2WitnessRecord rfl (by norm_num [c2WitnessRecord])
    (by norm_num [c2WitnessRecord]) (by norm_num [c2WitnessRecord])
    (by norm_num [c2WitnessRecord])

/-- C9: both encoder entry points are deterministic pure functions of their
inputs (equal records and equal secondary-image lengths give identical
outputs), with the attribute emission order fixed as listed. -/
theorem c9_encoder_determinism :
    (∀ (m₁ m₂ : MetadataG String) (l₁ l₂ : ℕ), m₁ = m₂ → l₁ = l₂ →
      generateXmpForPrimaryImage l₁ m₁ = generateXmpForPrimaryImage l₂ m₂) ∧
    (∀ m₁ m₂ : MetadataG String, m₁ = m₂ →
      generateXmpForSecondaryImage m₁ = generateXmpForSecondaryImage m₂) ∧
    (∀ (l : ℕ) (m : MetadataG String),
      attrNames (generateXmpForPrimaryImage l m) =
        ["x:xmptk", kMapVersion, "rdf:parseType", kItemSemantic, kItemMime,
         "rdf:parseType", kItemSemantic, kItemMime, kItemLength]) ∧
    (∀ m : MetadataG String,
      attrNames (generateXmpForSecondaryImage m) =
        ["x:xmptk", kMapVersion, kMapGainMapMin, kMapGainMapMax, kMapGamma,
         kMapOffsetSdr, kMapOffsetHdr, kMapHDRCapacityMin, kMapHDRCapacityMax,
         kMapBaseRenditionIsHDR]) := by
  refine ⟨?_, ?_, ?_, ?_⟩
  · intro m₁ m₂ l₁ l₂ hm hl
    rw [hm, hl]
  · intro m₁ m₂ hm
    rw [hm]
  · intro l m
    rfl
  · intro m
    rfl

/-- Witness for C9 at a concrete record and length. -/
theorem c9_encoder_determinism_witness :
    generateXmpForPrimaryImage 37 c9WitnessRecord =
      generateXmpForPrimaryImage 37 c9WitnessRecord ∧
    generateXmpForSecondaryImage c9WitnessRecord =
      generateXmpForSecondaryImage c9WitnessRecord ∧
    attrNames (generateXmpForSecondaryImage c9WitnessRecord) =
      ["x:xmptk", kMapVersion, kMapGainMapMin, kMapGainMapMax, kMapGamma,
       kMapOffsetSdr, kMapOffsetHdr, kMapHDRCapacityMin, kMapHDRCapacityMax,
       kMapBaseRenditionIsHDR] :=
  ⟨c9_encoder_determinism.1 c9WitnessRecord c9WitnessRecord 37 37 rfl rfl,
   c9_encoder_determinism.2.1 c9WitnessRecord c9WitnessRecord rfl,
   c9_encoder_determinism.2.2.2 c9WitnessRecord⟩

end ultrahdr
